import Mathlib

/-!
A shallow embedding of the `casual` crate (`src/lib.rs`): an input builder
(`Input<T>`) and its read-parse-validate-retry acquisition loop
(`try_get_with` / `get` / `check`), plus the shortcut functions `input`,
`prompt` and `confirm`.

Modelling conventions:
* `Input T` mirrors the Rust struct `Input<T>` field for field; the Rust
  field `prefix` is called `prefix_` (`prefix` is a Lean keyword), and the
  boxed closure in `Validator<T>` is collapsed to a plain `T → Bool`.
* Console I/O is made explicit: stdin is a finite list of the successive
  results returned by the `read_line` closure that `try_get_with` receives
  (`Except E String`; an `Except.error e` is an `io::Result` error `e`), and
  everything written to stdout is collected as a trace of `OutEvent`s:
  `OutEvent.promptWrite s` records the composed prompt bytes written without
  a trailing newline and flushed by `read_line` (src/lib.rs lines 164-173),
  and `OutEvent.errLine s` records one `println!` line.
* The loop runs one iteration per stdin entry; `Outcome.pending` means the
  stdin list was exhausted with the loop still looping (the real loop would
  block on the console for more input). `Outcome.err e` models `try_get`
  returning `Err(e)`, which `get` turns into a panic via `.unwrap()`.
* Rust's `str::trim` and `str::to_lowercase` are modelled on the character
  list of the string (faithful on ASCII input), and the `FromStr` bound is
  an explicit `parse : String → Except String T` argument whose error
  string stands for the `Display` rendering of `<T as FromStr>::Err`.
-/

namespace Casual

/-- Rust `str::trim`: drop leading and trailing whitespace characters. -/
def strTrim (s : String) : String :=
  ⟨(((s.data.dropWhile Char.isWhitespace).reverse).dropWhile Char.isWhitespace).reverse⟩

/-- Rust `str::to_lowercase` (ASCII-faithful). -/
def strToLower (s : String) : String :=
  ⟨s.data.map Char.toLower⟩

/-- The input builder `Input<T>` (src/lib.rs lines 55-61). The Rust field
`prefix` is named `prefix_` because `prefix` is a Lean keyword; the
`validator: Option<Validator<T>>` field carries the closure directly. -/
structure Input (T : Type) where
  prompt : Option String
  prefix_ : Option String
  suffix : Option String
  default : Option T
  validator : Option (T → Bool)

/-- `Input::new()` (src/lib.rs lines 107-115): all five fields unset. -/
def Input.new {T : Type} : Input T :=
  { prefix_ := none
    prompt := none
    suffix := none
    default := none
    validator := none }

/-- The `Default` impl for `Input<T>` (src/lib.rs lines 94-101): delegates to
`Input::new()`. -/
def Input.defaultImpl {T : Type} : Input T :=
  Input.new

/-- `Input::prompt` (src/lib.rs lines 118-121). -/
def Input.setPrompt {T : Type} (i : Input T) (s : String) : Input T :=
  { i with prompt := some s }

/-- `Input::prefix` (src/lib.rs lines 124-127). -/
def Input.setPrefix {T : Type} (i : Input T) (s : String) : Input T :=
  { i with prefix_ := some s }

/-- `Input::suffix` (src/lib.rs lines 130-133). -/
def Input.setSuffix {T : Type} (i : Input T) (s : String) : Input T :=
  { i with suffix := some s }

/-- `Input::default` (src/lib.rs lines 139-142). -/
def Input.setDefault {T : Type} (i : Input T) (d : T) : Input T :=
  { i with default := some d }

/-- `Input::matches` (src/lib.rs lines 155-161): overwrites any prior
validator. -/
def Input.matches {T : Type} (i : Input T) (f : T → Bool) : Input T :=
  { i with validator := some f }

/-- The prompt composition inside `try_get_with` (src/lib.rs lines 192-202):
start from an empty string, push the prefix if set, push the prompt, push
the suffix if set. -/
def composePrompt (pfx : Option String) (p : String) (sfx : Option String) : String :=
  let s : String := ""
  let s := match pfx with
    | some x => s ++ x
    | none => s
  let s := s ++ p
  let s := match sfx with
    | some x => s ++ x
    | none => s
  s

/-- The composed prompt of a configuration: `prompt.map (...)` in
src/lib.rs line 192 — `none` whenever the `prompt` field is unset, even if
`prefix`/`suffix` are set. -/
def Input.composedPrompt {T : Type} (i : Input T) : Option String :=
  i.prompt.map (fun p => composePrompt i.prefix_ p i.suffix)

/-- One stdout event of the acquisition loop. -/
inductive OutEvent where
  /-- The composed prompt written with no trailing newline, then flushed
  (`read_line`, src/lib.rs lines 165-169). -/
  | promptWrite (s : String)
  /-- One `println!` error line (src/lib.rs lines 217 and 224). -/
  | errLine (s : String)
deriving Repr, DecidableEq

/-- The stdout bytes `read_line` (src/lib.rs lines 164-173) writes before
reading: the composed prompt when it is set, nothing otherwise. -/
def promptEvents : Option String → List OutEvent
  | some p => [OutEvent.promptWrite p]
  | none => []

/-- How one run of the loop ended. -/
inductive Outcome (E T : Type) where
  /-- The loop hit `break v`: `try_get_with` returns `Ok(v)`. -/
  | ok (v : T)
  /-- A `read_line` call returned `Err(e)`, propagated by `?`:
  `try_get_with` returns `Err(e)` and `get`'s `.unwrap()` panics. -/
  | err (e : E)
  /-- The finite stdin list ran out with the loop still iterating. -/
  | pending
deriving Repr, DecidableEq

/-- The observable result of running the loop on a finite stdin list:
the outcome, the full stdout trace, and how many `read_line` calls were
made (one per loop iteration). -/
structure RunResult (E T : Type) where
  outcome : Outcome E T
  out : List OutEvent
  reads : Nat
deriving Repr, DecidableEq

/-- The `loop` body of `try_get_with` (src/lib.rs lines 204-229), run over
a finite list of `read_line` results. Each iteration: emit the prompt
(inside `read_line`), take the next read result; on `Err` propagate; on
`Ok line` trim it; empty → return the default or silently continue;
non-empty → parse; parse error → print `Error: <err>` and continue; parsed
value failing the validator → print `Error: invalid input` and continue;
otherwise `break` with the value. -/
def tryGetLoop {E T : Type} (parse : String → Except String T)
    (validator : Option (T → Bool)) (dflt : Option T) (pr : Option String) :
    List (Except E String) → RunResult E T
  | [] => { outcome := Outcome.pending, out := [], reads := 0 }
  | r :: rest =>
    let pe := promptEvents pr
    match r with
    | Except.error e => { outcome := Outcome.err e, out := pe, reads := 1 }
    | Except.ok line =>
      let raw := strTrim line
      if raw = "" then
        match dflt with
        | some d => { outcome := Outcome.ok d, out := pe, reads := 1 }
        | none =>
          let k := tryGetLoop parse validator dflt pr rest
          { outcome := k.outcome, out := pe ++ k.out, reads := k.reads + 1 }
      else
        match parse raw with
        | Except.ok result =>
          match validator with
          | some v =>
            if v result then
              { outcome := Outcome.ok result, out := pe, reads := 1 }
            else
              let k := tryGetLoop parse validator dflt pr rest
              { outcome := k.outcome
                out := pe ++ OutEvent.errLine "Error: invalid input" :: k.out
                reads := k.reads + 1 }
          | none => { outcome := Outcome.ok result, out := pe, reads := 1 }
        | Except.error err =>
          let k := tryGetLoop parse validator dflt pr rest
          { outcome := k.outcome
            out := pe ++ OutEvent.errLine ("Error: " ++ err) :: k.out
            reads := k.reads + 1 }

/-- `Input::try_get_with` (src/lib.rs lines 180-230): destructure the
configuration, compose the prompt once, then run the loop. The `read_line`
closure argument is modelled by the stdin list together with the
prompt-writing behaviour of `read_line` (src/lib.rs lines 164-173), so this
also models `try_get` (line 232-234). -/
def Input.tryGetWith {E T : Type} (i : Input T) (parse : String → Except String T)
    (stdin : List (Except E String)) : RunResult E T :=
  tryGetLoop parse i.validator i.default i.composedPrompt stdin

/-- `Input::get` (src/lib.rs lines 246-248): `try_get().unwrap()`. An
`Outcome.err e` result is the panic of `.unwrap()`. -/
def Input.get {E T : Type} (i : Input T) (parse : String → Except String T)
    (stdin : List (Except E String)) : RunResult E T :=
  i.tryGetWith parse stdin

/-- Map a function over the `ok` value of an outcome. -/
def Outcome.mapOk {E T U : Type} (f : T → U) : Outcome E T → Outcome E U
  | Outcome.ok v => Outcome.ok (f v)
  | Outcome.err e => Outcome.err e
  | Outcome.pending => Outcome.pending

/-- `Input::check` (src/lib.rs lines 263-268): `check(self.get())` — the
predicate is applied once to the resolved value; the console interaction is
exactly that of `get`. -/
def Input.check {E T : Type} (i : Input T) (parse : String → Except String T)
    (chk : T → Bool) (stdin : List (Except E String)) : RunResult E Bool :=
  let r := i.get parse stdin
  { outcome := r.outcome.mapOk chk, out := r.out, reads := r.reads }

/-- The shortcut `input()` (src/lib.rs lines 285-287). -/
def input {T : Type} : Input T :=
  Input.new

/-- The shortcut `prompt(text)` (src/lib.rs lines 310-315). -/
def prompt {T : Type} (text : String) : Input T :=
  Input.new.setPrompt text

/-- `FromStr` for `String` (`Err = Infallible`): parsing never fails and
returns the string itself. -/
def stringFromStr (s : String) : Except String String :=
  Except.ok s

/-- The validator `confirm` attaches (src/lib.rs line 333):
`matches!(&*s.trim().to_lowercase(), "n" | "no" | "y" | "yes")` as a
boolean pattern test. -/
def confirmValidator (s : String) : Bool :=
  let t := strToLower (strTrim s)
  t == "n" || t == "no" || t == "y" || t == "yes"

/-- The final check `confirm` applies (src/lib.rs line 334):
`matches!(&*s.to_lowercase(), "y" | "yes")` as a boolean pattern test. -/
def confirmCheck (s : String) : Bool :=
  let t := strToLower s
  t == "y" || t == "yes"

/-- The configuration `confirm` builds (src/lib.rs lines 330-333):
`prompt(text).suffix(" [y/N] ").default("n".to_string()).matches(...)`. -/
def confirmInput (text : String) : Input String :=
  (((prompt text).setSuffix " [y/N] ").setDefault "n").matches confirmValidator

/-- `confirm(text)` (src/lib.rs lines 329-335), run on a stdin list. -/
def confirm {E : Type} (text : String) (stdin : List (Except E String)) :
    RunResult E Bool :=
  (confirmInput text).check stringFromStr confirmCheck stdin

/-- A concrete `FromStr` instance for witnesses, modelled on Rust's
`u32::from_str` (simplified: no leading `+` sign): the error strings are the
`Display` renderings Rust produces. -/
def parseU32 (s : String) : Except String Nat :=
  if s.data = [] then
    Except.error "cannot parse integer from empty string"
  else if s.data.all Char.isDigit then
    let n := s.data.foldl (fun a c => a * 10 + (c.toNat - 48)) 0
    if n < 4294967296 then Except.ok n
    else Except.error "number too large to fit in target type"
  else
    Except.error "invalid digit found in string"

/-! ### Step lemmas for the acquisition loop -/

theorem append_empty_str (s : String) : s ++ "" = s := by
  cases s with
  | mk data => simp [String.append]

theorem tryGetLoop_nil {E T : Type} (parse : String → Except String T)
    (validator : Option (T → Bool)) (dflt : Option T) (pr : Option String) :
    tryGetLoop parse validator dflt pr ([] : List (Except E String)) =
      { outcome := Outcome.pending, out := [], reads := 0 } :=
  rfl

theorem tryGetLoop_cons_ioerr {E T : Type} (parse : String → Except String T)
    (validator : Option (T → Bool)) (dflt : Option T) (pr : Option String)
    (e : E) (rest : List (Except E String)) :
    tryGetLoop parse validator dflt pr (Except.error e :: rest) =
      { outcome := Outcome.err e, out := promptEvents pr, reads := 1 } :=
  rfl

theorem tryGetLoop_cons_empty_default {E T : Type} (parse : String → Except String T)
    (validator : Option (T → Bool)) (d : T) (pr : Option String)
    (line : String) (rest : List (Except E String)) (hline : strTrim line = "") :
    tryGetLoop parse validator (some d) pr (Except.ok line :: rest) =
      { outcome := Outcome.ok d, out := promptEvents pr, reads := 1 } := by
  simp [tryGetLoop, hline]

theorem tryGetLoop_cons_empty_nodefault {E T : Type} (parse : String → Except String T)
    (validator : Option (T → Bool)) (pr : Option String)
    (line : String) (rest : List (Except E String)) (hline : strTrim line = "") :
    tryGetLoop parse validator none pr (Except.ok line :: rest) =
      { outcome := (tryGetLoop parse validator none pr rest).outcome
        out := promptEvents pr ++ (tryGetLoop parse validator none pr rest).out
        reads := (tryGetLoop parse validator none pr rest).reads + 1 } := by
  simp [tryGetLoop, hline]

theorem tryGetLoop_cons_parse_error {E T : Type} (parse : String → Except String T)
    (validator : Option (T → Bool)) (dflt : Option T) (pr : Option String)
    (line : String) (rest : List (Except E String)) (msg : String)
    (hline : strTrim line ≠ "") (hparse : parse (strTrim line) = Except.error msg) :
    tryGetLoop parse validator dflt pr (Except.ok line :: rest) =
      { outcome := (tryGetLoop parse validator dflt pr rest).outcome
        out := promptEvents pr ++
          OutEvent.errLine ("Error: " ++ msg) :: (tryGetLoop parse validator dflt pr rest).out
        reads := (tryGetLoop parse validator dflt pr rest).reads + 1 } := by
  simp [tryGetLoop, hline, hparse]

theorem tryGetLoop_cons_invalid {E T : Type} (parse : String → Except String T)
    (p : T → Bool) (dflt : Option T) (pr : Option String)
    (line : String) (rest : List (Except E String)) (v : T)
    (hline : strTrim line ≠ "") (hparse : parse (strTrim line) = Except.ok v)
    (hval : p v = false) :
    tryGetLoop parse (some p) dflt pr (Except.ok line :: rest) =
      { outcome := (tryGetLoop parse (some p) dflt pr rest).outcome
        out := promptEvents pr ++
          OutEvent.errLine "Error: invalid input" :: (tryGetLoop parse (some p) dflt pr rest).out
        reads := (tryGetLoop parse (some p) dflt pr rest).reads + 1 } := by
  simp [tryGetLoop, hline, hparse, hval]

theorem tryGetLoop_cons_valid {E T : Type} (parse : String → Except String T)
    (p : T → Bool) (dflt : Option T) (pr : Option String)
    (line : String) (rest : List (Except E String)) (v : T)
    (hline : strTrim line ≠ "") (hparse : parse (strTrim line) = Except.ok v)
    (hval : p v = true) :
    tryGetLoop parse (some p) dflt pr (Except.ok line :: rest) =
      { outcome := Outcome.ok v, out := promptEvents pr, reads := 1 } := by
  simp [tryGetLoop, hline, hparse, hval]

theorem tryGetLoop_cons_novalidator {E T : Type} (parse : String → Except String T)
    (dflt : Option T) (pr : Option String)
    (line : String) (rest : List (Except E String)) (v : T)
    (hline : strTrim line ≠ "") (hparse : parse (strTrim line) = Except.ok v) :
    tryGetLoop parse none dflt pr (Except.ok line :: rest) =
      { outcome := Outcome.ok v, out := promptEvents pr, reads := 1 } := by
  simp [tryGetLoop, hline, hparse]

/-- Whether a stdout event is a prompt write (as opposed to an error line). -/
def OutEvent.isPrompt : OutEvent → Bool
  | OutEvent.promptWrite _ => true
  | OutEvent.errLine _ => false

theorem composePrompt_eq (pfx : Option String) (p : String) (sfx : Option String) :
    composePrompt pfx p sfx = pfx.getD "" ++ p ++ sfx.getD "" := by
  cases pfx <;> cases sfx <;>
    simp [composePrompt, append_empty_str, Option.getD]

/-! ### Claim theorems -/

/-- C1: for every configuration and every input line whose trimmed text is
non-empty, the loop parses the trimmed text; on parse failure it prints
`Error: <description>` and retries; on parse success with a validator
returning false it prints `Error: invalid input` and retries; on parse
success with the validator returning true (or no validator) it terminates
returning the parsed value. -/
theorem C1_parse_validate_retry {E T : Type} (parse : String → Except String T)
    (i : Input T) (line : String) (rest : List (Except E String))
    (hline : strTrim line ≠ "") :
    (∀ msg, parse (strTrim line) = Except.error msg →
      i.tryGetWith parse (Except.ok line :: rest) =
        { outcome := (i.tryGetWith parse rest).outcome
          out := promptEvents i.composedPrompt ++
            OutEvent.errLine ("Error: " ++ msg) :: (i.tryGetWith parse rest).out
          reads := (i.tryGetWith parse rest).reads + 1 }) ∧
    (∀ v p, parse (strTrim line) = Except.ok v → i.validator = some p → p v = false →
      i.tryGetWith parse (Except.ok line :: rest) =
        { outcome := (i.tryGetWith parse rest).outcome
          out := promptEvents i.composedPrompt ++
            OutEvent.errLine "Error: invalid input" :: (i.tryGetWith parse rest).out
          reads := (i.tryGetWith parse rest).reads + 1 }) ∧
    (∀ v, parse (strTrim line) = Except.ok v →
      (∀ p, i.validator = some p → p v = true) →
      i.tryGetWith parse (Except.ok line :: rest) =
        { outcome := Outcome.ok v, out := promptEvents i.composedPrompt, reads := 1 }) := by
  refine ⟨?_, ?_, ?_⟩
  · intro msg hparse
    exact tryGetLoop_cons_parse_error parse i.validator i.default i.composedPrompt
      line rest msg hline hparse
  · intro v p hparse hv hval
    unfold Input.tryGetWith
    rw [hv]
    exact tryGetLoop_cons_invalid parse p i.default i.composedPrompt
      line rest v hline hparse hval
  · intro v hparse hvOk
    unfold Input.tryGetWith
    cases hv : i.validator with
    | none =>
      exact tryGetLoop_cons_novalidator parse i.default i.composedPrompt
        line rest v hline hparse
    | some p =>
      exact tryGetLoop_cons_valid parse p i.default i.composedPrompt
        line rest v hline hparse (hvOk p hv)

/-- Witness for C1: on input line `"abc"` with no more stdin, `u32` parsing
fails, the loop prints `Error: invalid digit found in string` and keeps
looping. -/
theorem C1_witness :
    (Input.new.tryGetWith parseU32 [Except.ok "abc"] : RunResult Nat Nat) =
      { outcome := Outcome.pending
        out := [OutEvent.errLine "Error: invalid digit found in string"]
        reads := 1 } := by
  exact ((C1_parse_validate_retry parseU32 Input.new "abc"
    ([] : List (Except Nat String)) (by decide)).1
    "invalid digit found in string" rfl).trans rfl

/-- C2: with a default `d` configured and an empty trimmed input line,
`get()` returns `d` immediately, whatever the validator is (it is never
invoked); with no default configured, an empty trimmed line is a silent
retry with nothing printed. -/
theorem C2_default_bypasses_validator {E T : Type} (parse : String → Except String T)
    (i : Input T) (line : String) (rest : List (Except E String))
    (hline : strTrim line = "") :
    (∀ d, i.default = some d →
      i.get parse (Except.ok line :: rest) =
        { outcome := Outcome.ok d, out := promptEvents i.composedPrompt, reads := 1 }) ∧
    (i.default = none →
      i.get parse (Except.ok line :: rest) =
        { outcome := (i.get parse rest).outcome
          out := promptEvents i.composedPrompt ++ (i.get parse rest).out
          reads := (i.get parse rest).reads + 1 }) := by
  constructor
  · intro d hd
    unfold Input.get Input.tryGetWith
    rw [hd]
    exact tryGetLoop_cons_empty_default parse i.validator d i.composedPrompt
      line rest hline
  · intro hd
    unfold Input.get Input.tryGetWith
    rw [hd]
    exact tryGetLoop_cons_empty_nodefault parse i.validator i.composedPrompt
      line rest hline

/-- Witness for C2: a default of `7` together with a validator rejecting
everything still yields `7` on a whitespace-only line; without a default,
an empty line retries silently (no output, still pending). -/
theorem C2_witness :
    ((Input.new.setDefault 7).matches (fun _ => false)).get parseU32
        ([Except.ok "  "] : List (Except Nat String)) =
      { outcome := Outcome.ok 7, out := [], reads := 1 } ∧
    (Input.new : Input Nat).get parseU32 ([Except.ok ""] : List (Except Nat String)) =
      { outcome := Outcome.pending, out := [], reads := 1 } := by
  constructor
  · exact ((C2_default_bypasses_validator parseU32
      ((Input.new.setDefault 7).matches (fun _ => false)) "  "
      ([] : List (Except Nat String)) rfl).1 7 rfl).trans rfl
  · exact ((C2_default_bypasses_validator parseU32 Input.new ""
      ([] : List (Except Nat String)) rfl).2 rfl).trans rfl

/-- C8: every builder setter is total, sets or overwrites exactly its own
field — a second `matches` call discards the previous validator — and
leaves the other four fields unchanged. -/
theorem C8_setters_frame {T : Type} (i : Input T) (s : String) (d : T) (p q : T → Bool) :
    ((i.setPrompt s).prompt = some s ∧ (i.setPrompt s).prefix_ = i.prefix_ ∧
      (i.setPrompt s).suffix = i.suffix ∧ (i.setPrompt s).default = i.default ∧
      (i.setPrompt s).validator = i.validator) ∧
    ((i.setPrefix s).prefix_ = some s ∧ (i.setPrefix s).prompt = i.prompt ∧
      (i.setPrefix s).suffix = i.suffix ∧ (i.setPrefix s).default = i.default ∧
      (i.setPrefix s).validator = i.validator) ∧
    ((i.setSuffix s).suffix = some s ∧ (i.setSuffix s).prompt = i.prompt ∧
      (i.setSuffix s).prefix_ = i.prefix_ ∧ (i.setSuffix s).default = i.default ∧
      (i.setSuffix s).validator = i.validator) ∧
    ((i.setDefault d).default = some d ∧ (i.setDefault d).prompt = i.prompt ∧
      (i.setDefault d).prefix_ = i.prefix_ ∧ (i.setDefault d).suffix = i.suffix ∧
      (i.setDefault d).validator = i.validator) ∧
    ((i.matches p).validator = some p ∧ (i.matches p).prompt = i.prompt ∧
      (i.matches p).prefix_ = i.prefix_ ∧ (i.matches p).suffix = i.suffix ∧
      (i.matches p).default = i.default) ∧
    ((i.matches p).matches q).validator = some q :=
  ⟨⟨rfl, rfl, rfl, rfl, rfl⟩, ⟨rfl, rfl, rfl, rfl, rfl⟩, ⟨rfl, rfl, rfl, rfl, rfl⟩,
    ⟨rfl, rfl, rfl, rfl, rfl⟩, ⟨rfl, rfl, rfl, rfl, rfl⟩, rfl⟩

/-- C10: `input()`, `Input::new()` and the `Default` impl all produce the
configuration with all five fields unset, and `prompt(text)` is exactly
`Input::new().prompt(text)`. -/
theorem C10_shortcuts_agree {T : Type} (text : String) :
    (input : Input T) = Input.new ∧
    (Input.defaultImpl : Input T) = Input.new ∧
    (Input.new : Input T).prompt = none ∧
    (Input.new : Input T).prefix_ = none ∧
    (Input.new : Input T).suffix = none ∧
    (Input.new : Input T).default = none ∧
    (Input.new : Input T).validator = none ∧
    (prompt text : Input T) = Input.new.setPrompt text :=
  ⟨rfl, rfl, rfl, rfl, rfl, rfl, rfl, rfl⟩

/-- C5: `confirm(text)` builds a configuration with prompt `text`, suffix
`" [y/N] "`, default `"n"`, and a validator accepting exactly the trimmed,
lowercased strings `"n"`, `"no"`, `"y"`, `"yes"`; it returns true exactly
when the resolved string lowercases to `"y"` or `"yes"`: input `"y"` yields
true, `"N"` yields false, an empty line yields false via the default, and
`"maybe"` followed by `"yes"` yields true after one error line. -/
theorem C5_confirm_behaviour :
    (confirmInput "Are you sure?").prompt = some "Are you sure?" ∧
    (confirmInput "Are you sure?").suffix = some " [y/N] " ∧
    (confirmInput "Are you sure?").default = some "n" ∧
    (confirmInput "Are you sure?").validator = some confirmValidator ∧
    (∀ s, (confirmValidator s = true ↔
      strToLower (strTrim s) ∈ (["n", "no", "y", "yes"] : List String))) ∧
    (∀ s, (confirmCheck s = true ↔ strToLower s ∈ (["y", "yes"] : List String))) ∧
    (confirm "Are you sure?" ([Except.ok "y"] : List (Except Nat String))).outcome =
      Outcome.ok true ∧
    (confirm "Are you sure?" ([Except.ok "N"] : List (Except Nat String))).outcome =
      Outcome.ok false ∧
    (confirm "Are you sure?" ([Except.ok ""] : List (Except Nat String))).outcome =
      Outcome.ok false ∧
    confirm "Are you sure?" ([Except.ok "maybe", Except.ok "yes"] : List (Except Nat String)) =
      { outcome := Outcome.ok true
        out := [OutEvent.promptWrite "Are you sure? [y/N] ",
                OutEvent.errLine "Error: invalid input",
                OutEvent.promptWrite "Are you sure? [y/N] "]
        reads := 2 } := by
  refine ⟨rfl, rfl, rfl, rfl, ?_, ?_, rfl, rfl, rfl, rfl⟩
  · intro s
    simp [confirmValidator, or_assoc]
  · intro s
    simp [confirmCheck]

/-- C6: `check(predicate)` applies the supplied predicate exactly once to
the single value resolved by `get()` and returns that boolean; it is
independent of the configured validator, and a false result does not cause
a retry — the console trace and the number of reads are exactly those of
`get()`. -/
theorem C6_check_applies_once {E T : Type} (parse : String → Except String T)
    (i : Input T) (chk : T → Bool) (stdin : List (Except E String)) :
    (∀ v, (i.get parse stdin).outcome = Outcome.ok v →
      (i.check parse chk stdin).outcome = Outcome.ok (chk v)) ∧
    (i.check parse chk stdin).out = (i.get parse stdin).out ∧
    (i.check parse chk stdin).reads = (i.get parse stdin).reads := by
  refine ⟨?_, rfl, rfl⟩
  intro v hv
  show ((i.get parse stdin).outcome).mapOk chk = Outcome.ok (chk v)
  rw [hv]
  rfl

/-- C7: for every value `v` and every textual representation `s` parsing to
`v`, supplying `s` surrounded by optional whitespace as the single input
line makes `get()` (with no validator, or one accepting `v`) return `v`. -/
theorem C7_parse_roundtrip {E T : Type} (parse : String → Except String T)
    (i : Input T) (v : T) (s line : String)
    (htrim : strTrim line = s) (hne : s ≠ "") (hparse : parse s = Except.ok v)
    (hval : ∀ p, i.validator = some p → p v = true) :
    (i.get parse ([Except.ok line] : List (Except E String))).outcome = Outcome.ok v := by
  subst htrim
  unfold Input.get Input.tryGetWith
  cases hv : i.validator with
  | none =>
    rw [tryGetLoop_cons_novalidator parse i.default i.composedPrompt line [] v hne hparse]
  | some p =>
    rw [tryGetLoop_cons_valid parse p i.default i.composedPrompt line [] v hne hparse
      (hval p hv)]

/-- Witness for C7: the line `"  42  "` (the representation `"42"` of `42`
surrounded by whitespace) makes `get()` return `42`. -/
theorem C7_witness :
    ((Input.new : Input Nat).get parseU32
      ([Except.ok "  42  "] : List (Except Nat String))).outcome = Outcome.ok 42 :=
  C7_parse_roundtrip parseU32 Input.new 42 "42" "  42  " rfl (by decide) rfl
    (fun _ hp => nomatch hp)

/-- In every run with a composed prompt `c`, the prompt writes in the trace
are exactly one verbatim copy of `c` per `read_line` call. -/
theorem tryGetLoop_prompt_trace {E T : Type} (parse : String → Except String T)
    (validator : Option (T → Bool)) (dflt : Option T) (c : String) :
    ∀ stdin : List (Except E String),
      (tryGetLoop parse validator dflt (some c) stdin).out.filter OutEvent.isPrompt =
        List.replicate (tryGetLoop parse validator dflt (some c) stdin).reads
          (OutEvent.promptWrite c) := by
  intro stdin
  induction stdin with
  | nil => simp [tryGetLoop]
  | cons r rest ih =>
    cases r with
    | error e =>
      rw [tryGetLoop_cons_ioerr]
      simp [promptEvents, OutEvent.isPrompt]
    | ok line =>
      by_cases hemp : strTrim line = ""
      · cases dflt with
        | none =>
          rw [tryGetLoop_cons_empty_nodefault parse validator (some c) line rest hemp]
          simp [promptEvents, OutEvent.isPrompt, List.replicate_succ, ih]
        | some d =>
          rw [tryGetLoop_cons_empty_default parse validator d (some c) line rest hemp]
          simp [promptEvents, OutEvent.isPrompt]
      · cases hp : parse (strTrim line) with
        | error msg =>
          rw [tryGetLoop_cons_parse_error parse validator dflt (some c) line rest msg hemp hp]
          simp [promptEvents, OutEvent.isPrompt, List.replicate_succ, ih]
        | ok v =>
          cases validator with
          | none =>
            rw [tryGetLoop_cons_novalidator parse dflt (some c) line rest v hemp hp]
            simp [promptEvents, OutEvent.isPrompt]
          | some pv =>
            cases hval : pv v with
            | false =>
              rw [tryGetLoop_cons_invalid parse pv dflt (some c) line rest v hemp hp hval]
              simp [promptEvents, OutEvent.isPrompt, List.replicate_succ, ih]
            | true =>
              rw [tryGetLoop_cons_valid parse pv dflt (some c) line rest v hemp hp hval]
              simp [promptEvents, OutEvent.isPrompt]

/-- In every run with no composed prompt, nothing is ever written as a
prompt. -/
theorem tryGetLoop_noprompt_trace {E T : Type} (parse : String → Except String T)
    (validator : Option (T → Bool)) (dflt : Option T) :
    ∀ stdin : List (Except E String),
      (tryGetLoop parse validator dflt none stdin).out.filter OutEvent.isPrompt = [] := by
  intro stdin
  induction stdin with
  | nil => simp [tryGetLoop]
  | cons r rest ih =>
    cases r with
    | error e =>
      rw [tryGetLoop_cons_ioerr]
      simp [promptEvents]
    | ok line =>
      by_cases hemp : strTrim line = ""
      · cases dflt with
        | none =>
          rw [tryGetLoop_cons_empty_nodefault parse validator none line rest hemp]
          simp [promptEvents, ih]
        | some d =>
          rw [tryGetLoop_cons_empty_default parse validator d none line rest hemp]
          simp [promptEvents]
      · cases hp : parse (strTrim line) with
        | error msg =>
          rw [tryGetLoop_cons_parse_error parse validator dflt none line rest msg hemp hp]
          simp [promptEvents, OutEvent.isPrompt, ih]
        | ok v =>
          cases validator with
          | none =>
            rw [tryGetLoop_cons_novalidator parse dflt none line rest v hemp hp]
            simp [promptEvents]
          | some pv =>
            cases hval : pv v with
            | false =>
              rw [tryGetLoop_cons_invalid parse pv dflt none line rest v hemp hp hval]
              simp [promptEvents, OutEvent.isPrompt, ih]
            | true =>
              rw [tryGetLoop_cons_valid parse pv dflt none line rest v hemp hp hval]
              simp [promptEvents]

/-- An `err` outcome can only come from an `Err` returned by a `read_line`
call: parse and validation failures never produce one. -/
theorem tryGetLoop_err_mem {E T : Type} (parse : String → Except String T)
    (validator : Option (T → Bool)) (dflt : Option T) (pr : Option String) :
    ∀ (stdin : List (Except E String)) (e : E),
      (tryGetLoop parse validator dflt pr stdin).outcome = Outcome.err e →
      Except.error e ∈ stdin := by
  intro stdin
  induction stdin with
  | nil =>
    intro e h
    simp [tryGetLoop] at h
  | cons r rest ih =>
    intro e h
    cases r with
    | error e' =>
      rw [tryGetLoop_cons_ioerr] at h
      cases h
      exact List.mem_cons_self _ _
    | ok line =>
      by_cases hemp : strTrim line = ""
      · cases dflt with
        | none =>
          rw [tryGetLoop_cons_empty_nodefault parse validator pr line rest hemp] at h
          exact List.mem_cons_of_mem _ (ih e h)
        | some d =>
          rw [tryGetLoop_cons_empty_default parse validator d pr line rest hemp] at h
          cases h
      · cases hp : parse (strTrim line) with
        | error msg =>
          rw [tryGetLoop_cons_parse_error parse validator dflt pr line rest msg hemp hp] at h
          exact List.mem_cons_of_mem _ (ih e h)
        | ok v =>
          cases validator with
          | none =>
            rw [tryGetLoop_cons_novalidator parse dflt pr line rest v hemp hp] at h
            cases h
          | some pv =>
            cases hval : pv v with
            | false =>
              rw [tryGetLoop_cons_invalid parse pv dflt pr line rest v hemp hp hval] at h
              exact List.mem_cons_of_mem _ (ih e h)
            | true =>
              rw [tryGetLoop_cons_valid parse pv dflt pr line rest v hemp hp hval] at h
              cases h

/-- With a validator `p` installed, an `ok` outcome is either the configured
default (reached through the empty-line path) or a value `p` accepts. -/
theorem tryGetLoop_validator_sound {E T : Type} (parse : String → Except String T)
    (p : T → Bool) (dflt : Option T) (pr : Option String) :
    ∀ (stdin : List (Except E String)) (v : T),
      (tryGetLoop parse (some p) dflt pr stdin).outcome = Outcome.ok v →
      dflt = some v ∨ p v = true := by
  intro stdin
  induction stdin with
  | nil =>
    intro v h
    simp [tryGetLoop] at h
  | cons r rest ih =>
    intro v h
    cases r with
    | error e =>
      rw [tryGetLoop_cons_ioerr] at h
      cases h
    | ok line =>
      by_cases hemp : strTrim line = ""
      · cases dflt with
        | none =>
          rw [tryGetLoop_cons_empty_nodefault parse (some p) pr line rest hemp] at h
          exact ih v h
        | some d =>
          rw [tryGetLoop_cons_empty_default parse (some p) d pr line rest hemp] at h
          cases h
          exact Or.inl rfl
      · cases hp : parse (strTrim line) with
        | error msg =>
          rw [tryGetLoop_cons_parse_error parse (some p) dflt pr line rest msg hemp hp] at h
          exact ih v h
        | ok w =>
          cases hval : p w with
          | false =>
            rw [tryGetLoop_cons_invalid parse p dflt pr line rest w hemp hp hval] at h
            exact ih v h
          | true =>
            rw [tryGetLoop_cons_valid parse p dflt pr line rest w hemp hp hval] at h
            cases h
            exact Or.inr hval

/-- C3 (amended): when the `prompt` field is set, the composed prompt is
exactly `prefix ++ prompt ++ suffix` with unset prefix/suffix treated as
empty, computed once at consumption time, and that same verbatim text is
written (without trailing newline, then flushed) exactly once per loop
iteration; when the `prompt` field is unset, nothing is ever written as a
prompt, even if `prefix` or `suffix` are set. -/
theorem C3_composed_prompt {E T : Type} (parse : String → Except String T)
    (i : Input T) (stdin : List (Except E String)) :
    (∀ p, i.prompt = some p →
      i.composedPrompt = some (i.prefix_.getD "" ++ p ++ i.suffix.getD "") ∧
      (i.tryGetWith parse stdin).out.filter OutEvent.isPrompt =
        List.replicate (i.tryGetWith parse stdin).reads
          (OutEvent.promptWrite (i.prefix_.getD "" ++ p ++ i.suffix.getD ""))) ∧
    (i.prompt = none →
      (i.tryGetWith parse stdin).out.filter OutEvent.isPrompt = []) := by
  constructor
  · intro p hp
    have hc : i.composedPrompt = some (i.prefix_.getD "" ++ p ++ i.suffix.getD "") := by
      unfold Input.composedPrompt
      rw [hp]
      simp only [Option.map_some']
      rw [composePrompt_eq]
    refine ⟨hc, ?_⟩
    unfold Input.tryGetWith
    rw [hc]
    exact tryGetLoop_prompt_trace parse i.validator i.default _ stdin
  · intro hp
    have hc : i.composedPrompt = none := by
      unfold Input.composedPrompt
      rw [hp]
      simp only [Option.map_none']
    unfold Input.tryGetWith
    rw [hc]
    exact tryGetLoop_noprompt_trace parse i.validator i.default stdin

/-- Counterexample to C3 as stated: for the configuration with `prefix "X"`
and no prompt, the claim's composed text `"" ++ "X" ++ ""` is non-empty,
the loop runs an iteration (one read), yet nothing at all is written to the
console. -/
theorem C3_counterexample :
    (("" : String) ++ "X" ++ "") ≠ "" ∧
    ((Input.new.setPrefix "X" : Input Nat).tryGetWith parseU32
      ([Except.ok "1"] : List (Except Nat String))).out = [] ∧
    ((Input.new.setPrefix "X" : Input Nat).tryGetWith parseU32
      ([Except.ok "1"] : List (Except Nat String))).reads = 1 :=
  ⟨by decide, rfl, rfl⟩

/-- C4: `get()` panics (an `err` outcome of the run, unwrapped) only when a
console I/O operation fails — every `err` outcome traces back to an `Err`
in the stdin stream — and never because of a parse or validation failure:
if every read succeeds, no panic is possible. -/
theorem C4_panics_only_on_io {E T : Type} (parse : String → Except String T)
    (i : Input T) (stdin : List (Except E String)) :
    (∀ e, (i.get parse stdin).outcome = Outcome.err e → Except.error e ∈ stdin) ∧
    ((∀ r ∈ stdin, ∃ s, r = Except.ok s) →
      ∀ e, (i.get parse stdin).outcome ≠ Outcome.err e) := by
  constructor
  · intro e h
    exact tryGetLoop_err_mem parse i.validator i.default i.composedPrompt stdin e h
  · intro hok e he
    obtain ⟨s, hs⟩ := hok _ (tryGetLoop_err_mem parse i.validator i.default
      i.composedPrompt stdin e he)
    cases hs

/-- C9: with a validator `p` configured, any value `get()` returns is either
the configured default (empty-line path) or a value satisfying `p`; no
parsed value rejected by `p` is ever returned. -/
theorem C9_validator_invariant {E T : Type} (parse : String → Except String T)
    (i : Input T) (p : T → Bool) (stdin : List (Except E String)) (v : T)
    (hp : i.validator = some p)
    (h : (i.get parse stdin).outcome = Outcome.ok v) :
    i.default = some v ∨ p v = true := by
  unfold Input.get Input.tryGetWith at h
  rw [hp] at h
  exact tryGetLoop_validator_sound parse p i.default i.composedPrompt stdin v h

/-- Witness for C9: with validator `n < 10` and input `"5"`, the returned
value `5` satisfies the validator. -/
theorem C9_witness :
    (Input.new.matches (fun n : Nat => decide (n < 10))).default = some 5 ∨
      (fun n : Nat => decide (n < 10)) 5 = true :=
  C9_validator_invariant parseU32 (Input.new.matches (fun n : Nat => decide (n < 10)))
    (fun n : Nat => decide (n < 10)) ([Except.ok "5"] : List (Except Nat String)) 5 rfl rfl

end Casual
